import Mathlib

/-!
Shallow embedding of the ADA compliance core
(`src/ada_compliance/compliance_engine.py`, `cost_estimator.py`,
`analyzer.py`) and proofs about the spec's claims.

Modelling conventions:
* Python dicts with a fixed key set become structures; optional keys become
  `Option` fields (a missing key is `none`).
* Per-detection measurement maps (`measurements['slope']` etc.) become
  association lists `List (Nat × _)` with `List.lookup`; the outer
  `'slope' in measurements` presence test becomes an `Option` around the map.
* Python floats are modelled as exact rationals (`ℚ`); `int(x)` on a
  non-negative float is `Int.floor`.  All numeric literals of the source
  (8.33, 0.12, 1.3, ...) are carried over as the corresponding rationals.
* Python string formatting of measured floats (the `detected_value` display
  field) is presentation-only, read by no logic in the repository, and is not
  modelled; all other (constant) string fields are kept.
* Python's stable `list.sort`/`sorted` is modelled by `List.insertionSort`
  with the non-strict lexicographic order actually used as the sort key,
  which is extensionally the same stable sort.
-/

inductive Severity where
  | High
  | Medium
  | Low
deriving DecidableEq

structure Detection where
  id : Nat
  class_name : String
  confidence : ℚ
  bbox : List ℚ
deriving DecidableEq

structure Violation where
  vtype : String
  severity : Severity
  standard_value : String
  location : String
  reference : String
  recommendation : String
  bbox : List ℚ
  priority : Option Nat
  cost : Option Int
  labor_hours : Option Nat
deriving DecidableEq

/-- The per-kind measurement maps of `ComplianceRuleEngine.evaluate`'s
`measurements` dict: `none` models the kind's key being absent from the dict. -/
structure Measurements where
  slope : Option (List (Nat × ℚ))
  cross_slope : Option (List (Nat × ℚ))
  width : Option (List (Nat × ℚ))
  detectable_warning : Option (List (Nat × Bool))
  landing_size : Option (List (Nat × (ℚ × ℚ)))
  has_curb_ramps : Option (List (Nat × Bool))
  marking_quality : Option (List (Nat × ℚ))
  max_gap : Option (List (Nat × ℚ))
  vertical_change : Option (List (Nat × ℚ))
deriving DecidableEq

def emptyMeasurements : Measurements :=
  ⟨none, none, none, none, none, none, none, none, none⟩

/- ADA Standards Constants (compliance_engine.py lines 19-25).  They are
written with `mkRat` (kept reducible by the library, unlike `Rat.div`) so that
concrete runs of the rule engine can be evaluated by `decide`; the examples
below check they are the intended rationals 8.33, 2, 36, 0.5, 0.25, 36. -/

def MAX_CURB_RAMP_SLOPE : ℚ := mkRat 833 100

def MAX_CROSS_SLOPE : ℚ := 2

def MIN_SIDEWALK_WIDTH : ℚ := 36

def MAX_SURFACE_GAP : ℚ := mkRat 1 2

def MAX_VERTICAL_CHANGE : ℚ := mkRat 1 4

def MIN_LANDING_SIZE : ℚ := 36

example : MAX_CURB_RAMP_SLOPE = 833/100 := by
  norm_num [MAX_CURB_RAMP_SLOPE, Rat.mkRat_eq_div]

example : MAX_SURFACE_GAP = 1/2 ∧ MAX_VERTICAL_CHANGE = 1/4 := by
  constructor <;> norm_num [MAX_SURFACE_GAP, MAX_VERTICAL_CHANGE, Rat.mkRat_eq_div]

/- Python `class_name.lower()` and substring membership (`'curb' in name`). -/

def lowerChar (c : Char) : Char :=
  if c.isUpper then Char.ofNat (c.toNat + 32) else c

def lowerStr (s : String) : List Char :=
  s.toList.map lowerChar

def beginsWith : List Char → List Char → Bool
  | [], _ => true
  | _ :: _, [] => false
  | a :: as, b :: bs => a == b && beginsWith as bs

def hasSub (needle : List Char) : List Char → Bool
  | [] => needle.isEmpty
  | c :: t => beginsWith needle (c :: t) || hasSub needle t

def strIn (needle : String) (hay : List Char) : Bool :=
  hasSub needle.toList hay

/-- The `if/elif` dispatch chain of `evaluate` (compliance_engine.py 90-103). -/
inductive Route where
  | curb
  | sidewalk
  | crosswalk
  | surface
  | skip
deriving DecidableEq

def classRoute (class_name : String) : Route :=
  let n := lowerStr class_name
  if strIn "curb" n || strIn "ramp" n then Route.curb
  else if strIn "sidewalk" n || strIn "path" n then Route.sidewalk
  else if strIn "crosswalk" n || strIn "crossing" n then Route.crosswalk
  else if strIn "surface" n then Route.surface
  else Route.skip

/- `_check_curb_ramp` (compliance_engine.py 111-185).  A numeric measurement
participates only when present and truthy (`if slope and slope > MAX`):
Python treats `0.0` as falsy, hence the `≠ 0` conjunct. -/

def curbSlopeViolation (d : Detection) : Violation :=
  { vtype := "Curb Ramp Slope", severity := Severity.High,
    standard_value := "≤8.33% (1:12 ratio)",
    location := "Detected curb ramp", reference := "ADAAG 406.2",
    recommendation := "Reconstruct ramp to meet 1:12 maximum slope",
    bbox := d.bbox, priority := some 1, cost := none, labor_hours := none }

def crossSlopeViolationCurb (d : Detection) : Violation :=
  { vtype := "Cross Slope", severity := Severity.High,
    standard_value := "≤2%",
    location := "Curb ramp cross slope", reference := "ADAAG 406.3",
    recommendation := "Adjust cross slope to maximum 2%",
    bbox := d.bbox, priority := some 1, cost := none, labor_hours := none }

def detectableWarningViolation (d : Detection) : Violation :=
  { vtype := "Detectable Warning", severity := Severity.High,
    standard_value := "Required at all curb ramps",
    location := "Curb ramp", reference := "ADAAG 705",
    recommendation := "Install truncated dome detectable warning surface",
    bbox := d.bbox, priority := some 1, cost := none, labor_hours := none }

def landingSizeViolation (d : Detection) : Violation :=
  { vtype := "Landing Size", severity := Severity.Medium,
    standard_value := "≥36\" x 36\"",
    location := "Curb ramp landing", reference := "ADAAG 406.4",
    recommendation := "Expand landing to minimum 36\" x 36\"",
    bbox := d.bbox, priority := some 2, cost := none, labor_hours := none }

/-- The `# Check slope` block of `_check_curb_ramp` (compliance_engine.py
120-134). -/
def slopeCheck (d : Detection) (m : Measurements) : List Violation :=
  match m.slope with
  | none => []
  | some mp =>
    match List.lookup d.id mp with
    | none => []
    | some s =>
      if s ≠ 0 ∧ s > MAX_CURB_RAMP_SLOPE then [curbSlopeViolation d] else []

/-- The `# Check cross slope` block of `_check_curb_ramp`
(compliance_engine.py 136-150). -/
def crossSlopeCheckCurb (d : Detection) (m : Measurements) : List Violation :=
  match m.cross_slope with
  | none => []
  | some mp =>
    match List.lookup d.id mp with
    | none => []
    | some s =>
      if s ≠ 0 ∧ s > MAX_CROSS_SLOPE then [crossSlopeViolationCurb d] else []

/-- The `# Check detectable warnings` block of `_check_curb_ramp`
(compliance_engine.py 152-166): `measurements['detectable_warning'].get(det_id,
False)` defaults a missing id to `False`, and `if not has_warning` then emits
the violation. -/
def warningCheck (d : Detection) (m : Measurements) : List Violation :=
  match m.detectable_warning with
  | none => []
  | some mp =>
    if (List.lookup d.id mp).getD false then []
    else [detectableWarningViolation d]

/-- The `# Check landing size` block of `_check_curb_ramp`
(compliance_engine.py 168-183); a present pair is always truthy in Python. -/
def landingCheck (d : Detection) (m : Measurements) : List Violation :=
  match m.landing_size with
  | none => []
  | some mp =>
    match List.lookup d.id mp with
    | none => []
    | some landing =>
      if landing.1 < MIN_LANDING_SIZE ∨ landing.2 < MIN_LANDING_SIZE then
        [landingSizeViolation d]
      else []

def check_curb_ramp (d : Detection) (m : Measurements) : List Violation :=
  slopeCheck d m ++ crossSlopeCheckCurb d m ++ warningCheck d m ++ landingCheck d m

/- `_check_sidewalk` (compliance_engine.py 187-228). -/

def sidewalkWidthViolation (d : Detection) : Violation :=
  { vtype := "Sidewalk Width", severity := Severity.Medium,
    standard_value := "Minimum 36 inches",
    location := "Sidewalk", reference := "ADAAG 403.5.1",
    recommendation := "Widen sidewalk to minimum 36 inches",
    bbox := d.bbox, priority := some 2, cost := none, labor_hours := none }

def crossSlopeViolationSidewalk (d : Detection) : Violation :=
  { vtype := "Cross Slope", severity := Severity.High,
    standard_value := "Maximum 2%",
    location := "Sidewalk", reference := "ADAAG 406.3",
    recommendation := "Regrade sidewalk to reduce cross slope",
    bbox := d.bbox, priority := some 1, cost := none, labor_hours := none }

/-- The `# Check width` block of `_check_sidewalk` (compliance_engine.py
196-210).  `if width and width < 36`: a present width of exactly 0.0 is falsy
in Python and produces no verdict, while any other value (including negative
ones) is compared against the 36-inch minimum. -/
def widthCheck (d : Detection) (m : Measurements) : List Violation :=
  match m.width with
  | none => []
  | some mp =>
    match List.lookup d.id mp with
    | none => []
    | some w =>
      if w ≠ 0 ∧ w < MIN_SIDEWALK_WIDTH then [sidewalkWidthViolation d] else []

/-- The `# Check cross slope` block of `_check_sidewalk`
(compliance_engine.py 212-226). -/
def crossSlopeCheckSidewalk (d : Detection) (m : Measurements) : List Violation :=
  match m.cross_slope with
  | none => []
  | some mp =>
    match List.lookup d.id mp with
    | none => []
    | some s =>
      if s ≠ 0 ∧ s > MAX_CROSS_SLOPE then [crossSlopeViolationSidewalk d] else []

def check_sidewalk (d : Detection) (m : Measurements) : List Violation :=
  widthCheck d m ++ crossSlopeCheckSidewalk d m

/- `_check_crosswalk` (compliance_engine.py 230-271). -/

def missingCurbRampsViolation (d : Detection) : Violation :=
  { vtype := "Missing Curb Ramps", severity := Severity.High,
    standard_value := "Curb ramps required at all crossings",
    location := "Crosswalk", reference := "ADAAG 406",
    recommendation := "Install compliant curb ramps",
    bbox := d.bbox, priority := some 1, cost := none, labor_hours := none }

def crosswalkMarkingsViolation (d : Detection) : Violation :=
  { vtype := "Crosswalk Markings", severity := Severity.Medium,
    standard_value := "Clear and visible markings required",
    location := "Crosswalk", reference := "MUTCD Section 3B.18",
    recommendation := "Repaint crosswalk markings",
    bbox := d.bbox, priority := some 2, cost := none, labor_hours := none }

/-- The `# Check for curb ramps at crosswalk` block of `_check_crosswalk`
(compliance_engine.py 239-253): `.get(det_id, False)` defaults a missing id to
`False`, then `if not has_ramps` emits the violation. -/
def rampsCheck (d : Detection) (m : Measurements) : List Violation :=
  match m.has_curb_ramps with
  | none => []
  | some mp =>
    if (List.lookup d.id mp).getD false then []
    else [missingCurbRampsViolation d]

/-- The `# Check marking visibility` block of `_check_crosswalk`
(compliance_engine.py 255-269); the quality threshold 0.6 is `mkRat 3 5`. -/
def markingCheck (d : Detection) (m : Measurements) : List Violation :=
  match m.marking_quality with
  | none => []
  | some mp =>
    match List.lookup d.id mp with
    | none => []
    | some q =>
      if q ≠ 0 ∧ q < mkRat 3 5 then [crosswalkMarkingsViolation d] else []

def check_crosswalk (d : Detection) (m : Measurements) : List Violation :=
  rampsCheck d m ++ markingCheck d m

/- `_check_surface_quality` (compliance_engine.py 273-314). -/

def surfaceQualityViolation (d : Detection) : Violation :=
  { vtype := "Surface Quality", severity := Severity.Medium,
    standard_value := "Maximum 0.5 inch",
    location := "Surface", reference := "ADAAG 302.3",
    recommendation := "Repair or replace damaged surface",
    bbox := d.bbox, priority := some 3, cost := none, labor_hours := none }

def tripHazardViolation (d : Detection) : Violation :=
  { vtype := "Trip Hazard", severity := Severity.High,
    standard_value := "Maximum 0.25 inch",
    location := "Surface", reference := "ADAAG 303.2",
    recommendation := "Bevel edges or install ramp",
    bbox := d.bbox, priority := some 1, cost := none, labor_hours := none }

/-- The `# Check for cracks and gaps` block of `_check_surface_quality`
(compliance_engine.py 282-296). -/
def gapCheck (d : Detection) (m : Measurements) : List Violation :=
  match m.max_gap with
  | none => []
  | some mp =>
    match List.lookup d.id mp with
    | none => []
    | some g =>
      if g ≠ 0 ∧ g > MAX_SURFACE_GAP then [surfaceQualityViolation d] else []

/-- The `# Check for trip hazards` block of `_check_surface_quality`
(compliance_engine.py 298-312). -/
def verticalCheck (d : Detection) (m : Measurements) : List Violation :=
  match m.vertical_change with
  | none => []
  | some mp =>
    match List.lookup d.id mp with
    | none => []
    | some v =>
      if v ≠ 0 ∧ v > MAX_VERTICAL_CHANGE then [tripHazardViolation d] else []

def check_surface_quality (d : Detection) (m : Measurements) : List Violation :=
  gapCheck d m ++ verticalCheck d m

/- `_prioritize_violations` (compliance_engine.py 316-353). -/

def cost_estimates (t : String) : Option Nat :=
  if t = "Curb Ramp Slope" then some 2500
  else if t = "Cross Slope" then some 3200
  else if t = "Sidewalk Width" then some 1800
  else if t = "Detectable Warning" then some 800
  else if t = "Surface Quality" then some 2200
  else if t = "Landing Size" then some 1500
  else if t = "Missing Curb Ramps" then some 3500
  else if t = "Crosswalk Markings" then some 400
  else if t = "Trip Hazard" then some 1200
  else none

def severityPriority : Severity → Nat
  | Severity.High => 1
  | Severity.Medium => 2
  | Severity.Low => 3

/-- The per-violation mutation in `_prioritize_violations`'s loop: the cost is
always overwritten from the table (default 1000); the priority is filled from
the severity only when absent. -/
def enrich (v : Violation) : Violation :=
  { v with
    cost := some ((cost_estimates v.vtype).getD 1000 : Nat),
    priority :=
      match v.priority with
      | none => some (severityPriority v.severity)
      | some p => some p }

def sortPr (v : Violation) : Nat := v.priority.getD 0

def sortCo (v : Violation) : Int := v.cost.getD 0

/-- The sort key `(x['priority'], -x['cost'])` of compliance_engine.py 351,
as a non-strict total preorder (ascending priority, then descending cost). -/
def vLE (a b : Violation) : Prop :=
  sortPr a < sortPr b ∨ (sortPr a = sortPr b ∧ sortCo b ≤ sortCo a)

instance : DecidableRel vLE := fun a b =>
  inferInstanceAs
    (Decidable (sortPr a < sortPr b ∨ (sortPr a = sortPr b ∧ sortCo b ≤ sortCo a)))

instance : IsTotal Violation vLE := by
  constructor; intro a b; unfold vLE; omega

instance : IsTrans Violation vLE := by
  constructor; intro a b c; unfold vLE; omega

def prioritize (vs : List Violation) : List Violation :=
  List.insertionSort vLE (vs.map enrich)

/- `evaluate` (compliance_engine.py 72-109). -/

def rawViolations (m : Measurements) : List Detection → List Violation
  | [] => []
  | d :: rest =>
    (match classRoute d.class_name with
     | Route.curb => check_curb_ramp d m
     | Route.sidewalk => check_sidewalk d m
     | Route.crosswalk => check_crosswalk d m
     | Route.surface => check_surface_quality d m
     | Route.skip => []) ++ rawViolations m rest

def evaluate (m : Measurements) (detections : List Detection) : List Violation :=
  prioritize (rawViolations m detections)

example :
    (evaluate
      { emptyMeasurements with slope := some [(1, 12)] }
      [{ id := 1, class_name := "Curb Ramp", confidence := 9/10,
         bbox := [0, 0, 1, 1] }]).map Violation.vtype = ["Curb Ramp Slope"] := by
  decide

example : (0.6 : ℚ) = mkRat 3 5 := by
  norm_num [Rat.mkRat_eq_div]

/- `ComplianceAnalyzer._calculate_compliance_score` (analyzer.py 168-192).
Python's `int()` on the non-negative float is modelled as `Int.floor` of the
exact rational value. -/

def severity_weight : Severity → Nat
  | Severity.High => 3
  | Severity.Medium => 2
  | Severity.Low => 1

def total_severity_weight (violations : List Violation) : Nat :=
  (violations.map (fun v => severity_weight v.severity)).sum

def calculate_compliance_score
    (violations : List Violation) (detections : List Detection) : Int :=
  if detections = [] then 100
  else
    let total_weight := total_severity_weight violations
    let max_possible_weight := detections.length * 3
    if max_possible_weight = 0 then 100
    else
      let score : Int :=
        100 - Int.floor ((total_weight : ℚ) / (max_possible_weight : ℚ) * 100)
      max 0 (min 100 score)

/- `CostEstimator` (cost_estimator.py). -/

structure CostInfo where
  min : Nat
  max : Nat
  typical : Nat
  unit : String
  labor_hours : Nat
deriving DecidableEq

/-- `CostEstimator.BASE_COSTS` (cost_estimator.py 19-83); `none` models a type
absent from the dict. -/
def BASE_COSTS (t : String) : Option CostInfo :=
  if t = "Curb Ramp Slope" then some ⟨2000, 3500, 2500, "per ramp", 16⟩
  else if t = "Cross Slope" then some ⟨2500, 4000, 3200, "per section", 20⟩
  else if t = "Sidewalk Width" then some ⟨1500, 2500, 1800, "per linear foot", 12⟩
  else if t = "Detectable Warning" then some ⟨600, 1200, 800, "per installation", 4⟩
  else if t = "Surface Quality" then some ⟨1800, 3000, 2200, "per section", 14⟩
  else if t = "Landing Size" then some ⟨1200, 2000, 1500, "per landing", 10⟩
  else if t = "Missing Curb Ramps" then some ⟨3000, 4500, 3500, "per ramp", 24⟩
  else if t = "Crosswalk Markings" then some ⟨300, 600, 400, "per crossing", 2⟩
  else if t = "Trip Hazard" then some ⟨800, 1800, 1200, "per repair", 8⟩
  else none

/-- `CostEstimator.COMPLEXITY_FACTORS` (cost_estimator.py 86-92); the float
multipliers 1.3, 1.5, 1.4, 1.2, 1.0 are the exact rationals below. -/
def COMPLEXITY_FACTORS (c : String) : Option ℚ :=
  if c = "urban_high_traffic" then some (13/10)
  else if c = "historic_district" then some (3/2)
  else if c = "utility_conflicts" then some (7/5)
  else if c = "drainage_issues" then some (6/5)
  else if c = "standard" then some 1
  else none

/-- `adjusted_cost = int(base_cost * multiplier)` (cost_estimator.py 137):
`int()` of the non-negative product is the floor. -/
def adjustedCost (typical : Nat) (mult : ℚ) : Nat :=
  (Int.floor ((typical : ℚ) * mult)).toNat

structure BreakdownEntry where
  type : String
  cost : Nat
  unit : String
  labor_hours : Nat
  priority : Nat
deriving DecidableEq

/-- The `for violation in violations` loop of `estimate`
(cost_estimator.py 129-160), returning (breakdown, total_cost,
total_labor_hours).  A known type appends a breakdown entry whose priority is
`violation.get('priority', 2)`; an unknown type adds the defaults 1000 / 8 and
appends nothing. -/
def estimateLoop (mult : ℚ) : List Violation → List BreakdownEntry × Nat × Nat
  | [] => ([], 0, 0)
  | v :: rest =>
    let r := estimateLoop mult rest
    match BASE_COSTS v.vtype with
    | some info =>
      let ac := adjustedCost info.typical mult
      (⟨v.vtype, ac, info.unit, info.labor_hours, v.priority.getD 2⟩ :: r.1,
       ac + r.2.1, info.labor_hours + r.2.2)
    | none => (r.1, 1000 + r.2.1, 8 + r.2.2)

/-- `CostEstimator._estimate_timeline` (cost_estimator.py 179-211), with the
floats 2.5, 7, 1.2 as exact rationals and `int()` as floor. -/
def estimate_timeline (total_labor_hours : Nat) (_num_violations : Nat) : String :=
  let work_days : ℚ := (total_labor_hours : ℚ) / ((5/2) * 7)
  let work_days2 : ℚ := work_days * (6/5)
  let work_weeks : ℚ := work_days2 / 5
  if work_weeks < 1 then toString (Int.floor work_days2) ++ " days"
  else if work_weeks < 4 then toString (Int.floor work_weeks) ++ " weeks"
  else if work_weeks < 12 then
    toString (Int.floor (work_weeks / 4)) ++ "-" ++
      toString (Int.floor (work_weeks / 4) + 1) ++ " months"
  else toString (Int.floor (work_weeks / 4)) ++ " months"

/-- The dict returned by `estimate` (cost_estimator.py 113-119 and 169-177).
The empty-violations early return carries no `contingency`,
`total_with_contingency` or `complexity_factor` keys, hence the `Option`
fields (`none` models the key being absent). -/
structure Estimate where
  total_cost : Nat
  contingency : Option Nat
  total_with_contingency : Option Nat
  timeline : String
  breakdown : List BreakdownEntry
  labor_hours : Nat
  complexity_factor : Option ℚ
deriving DecidableEq

/-- `CostEstimator.estimate` (cost_estimator.py 98-177).  The contingency
`int(total_cost * 0.12)` truncates the exact product with 12/100. -/
def estimate (violations : List Violation) (complexity : String) : Estimate :=
  if violations = [] then
    { total_cost := 0, contingency := none, total_with_contingency := none,
      timeline := "N/A", breakdown := [], labor_hours := 0,
      complexity_factor := none }
  else
    let mult := (COMPLEXITY_FACTORS complexity).getD 1
    let r := estimateLoop mult violations
    let contingency := (Int.floor ((r.2.1 : ℚ) * (12/100))).toNat
    { total_cost := r.2.1,
      contingency := some contingency,
      total_with_contingency := some (r.2.1 + contingency),
      timeline := estimate_timeline r.2.2 violations.length,
      breakdown := r.1,
      labor_hours := r.2.2,
      complexity_factor := some mult }

/- `CostEstimator.estimate_phased_approach` (cost_estimator.py 213-269). -/

structure Phase where
  violations : List Violation
  cost : Int
  phase_number : Nat
deriving DecidableEq

structure PhasedPlan where
  phases : List Phase
  total_phases : Nat
  fully_funded : Bool
deriving DecidableEq

/-- The sort key `(x.get('priority', 3), -x.get('cost', 0))` of
cost_estimator.py 229-232, as a non-strict total preorder. -/
def pLE (a b : Violation) : Prop :=
  a.priority.getD 3 < b.priority.getD 3 ∨
    (a.priority.getD 3 = b.priority.getD 3 ∧ b.cost.getD 0 ≤ a.cost.getD 0)

instance : DecidableRel pLE := fun a b =>
  inferInstanceAs
    (Decidable (a.priority.getD 3 < b.priority.getD 3 ∨
      (a.priority.getD 3 = b.priority.getD 3 ∧ b.cost.getD 0 ≤ a.cost.getD 0)))

instance : IsTotal Violation pLE := by
  constructor; intro a b; unfold pLE; omega

instance : IsTrans Violation pLE := by
  constructor; intro a b c; unfold pLE; omega

/-- The `for violation in sorted_violations` loop of `estimate_phased_approach`
(cost_estimator.py 243-259).  State: (closed phases, current phase, remaining
budget).  Note the `else` branch does nothing when the current phase is still
empty: the violation is neither packed nor seeded. -/
def phasedLoop (budget : Int) :
    List Violation → List Phase → Phase → Int → List Phase × Phase × Int
  | [], phases, current, remaining => (phases, current, remaining)
  | v :: rest, phases, current, remaining =>
    let cost := v.cost.getD 0
    if cost ≤ remaining then
      phasedLoop budget rest phases
        { current with violations := current.violations ++ [v],
                       cost := current.cost + cost }
        (remaining - cost)
    else if current.violations ≠ [] then
      phasedLoop budget rest (phases ++ [current])
        { violations := [v], cost := cost,
          phase_number := (phases ++ [current]).length + 1 }
        (budget - cost)
    else
      phasedLoop budget rest phases current remaining

def estimate_phased_approach
    (violations : List Violation) (budget_constraint : Int) : PhasedPlan :=
  let sorted_violations := List.insertionSort pLE violations
  let r := phasedLoop budget_constraint sorted_violations []
    { violations := [], cost := 0, phase_number := 1 } budget_constraint
  let phases := if r.2.1.violations ≠ [] then r.1 ++ [r.2.1] else r.1
  { phases := phases, total_phases := phases.length,
    fully_funded := decide (r.2.2 ≥ 0) }

/-- A convenience constructor for violation records used in concrete test
inputs; only the fields a given claim reads are relevant. -/
def mkV (t : String) (s : Severity) (p : Option Nat) (c : Option Int) : Violation :=
  { vtype := t, severity := s, standard_value := "", location := "",
    reference := "", recommendation := "", bbox := [],
    priority := p, cost := c, labor_hours := none }

/- Sanity check: spec §8's concrete scenario for the estimator: one
"Curb Ramp Slope" violation at default complexity → cost 2500, labor 16,
contingency 300, total 2800. -/
example :
    estimate [mkV "Curb Ramp Slope" Severity.High (some 1) none] "standard" =
      { total_cost := 2500, contingency := some 300,
        total_with_contingency := some 2800,
        timeline := estimate_timeline 16 1,
        breakdown := [⟨"Curb Ramp Slope", 2500, "per ramp", 16, 1⟩],
        labor_hours := 16, complexity_factor := some 1 } := by
  simp [estimate, estimateLoop, adjustedCost, BASE_COSTS, COMPLEXITY_FACTORS, mkV]
  norm_num
  omega

/- Sanity check on the phased packing: costs [3500, 2500, 800], priorities
[1, 1, 2], budget 4000: 3500 opens phase 1 (remaining 500); 2500 does not fit
and seeds phase 2 (remaining 1500); 800 fits into phase 2. -/
example :
    (estimate_phased_approach
      [mkV "a" Severity.High (some 1) (some 3500),
       mkV "b" Severity.High (some 1) (some 2500),
       mkV "c" Severity.Medium (some 2) (some 800)] 4000).phases.map Phase.cost =
      [3500, 3300] := by
  decide

/-! ## Helper lemmas -/

/-- `enrich` does not change the violation type. -/
theorem enrich_vtype (v : Violation) : (enrich v).vtype = v.vtype := rfl

/-- Membership of a violation type in the prioritized list is the same as in
the raw list: `_prioritize_violations` only rewrites cost/priority and sorts. -/
theorem exists_vtype_prioritize (vs : List Violation) (s : String) :
    (∃ v ∈ prioritize vs, v.vtype = s) ↔ ∃ v ∈ vs, v.vtype = s := by
  unfold prioritize
  constructor
  · rintro ⟨v, hv, hs⟩
    have hv2 : v ∈ vs.map enrich := (List.perm_insertionSort vLE _).mem_iff.mp hv
    rcases List.mem_map.mp hv2 with ⟨w, hw, rfl⟩
    exact ⟨w, hw, hs⟩
  · rintro ⟨v, hv, hs⟩
    refine ⟨enrich v, ?_, hs⟩
    exact (List.mem_insertionSort vLE).mpr (List.mem_map_of_mem enrich hv)

/-! ## C5 -/

/-- C5 counterexample: the empty-input `estimate` result has NO contingency
key at all (the early return at cost_estimator.py 113-119 only carries
total_cost, timeline, breakdown, labor_hours), so its contingency field is
not the claimed 0. -/
theorem C5_contingency_key_absent :
    (estimate [] "standard").contingency = none ∧
    (estimate [] "standard").contingency ≠ some 0 := by
  exact ⟨rfl, by decide⟩

/-- C5 amended: `estimate []` (any complexity) returns total_cost 0, timeline
"N/A", empty breakdown and labor_hours 0, and is not an error; but the
contingency, total_with_contingency and complexity_factor keys are absent
from the returned dict rather than 0. -/
theorem C5_empty_estimate (c : String) :
    estimate [] c =
      { total_cost := 0, contingency := none, total_with_contingency := none,
        timeline := "N/A", breakdown := [], labor_hours := 0,
        complexity_factor := none } := rfl

/-! ## C1 -/

def c1v : Violation := mkV "Missing Curb Ramps" Severity.High (some 1) (some 5000)

/-- C1: the claimed cost-preserving partition fails: a violation whose cost
exceeds the full budget while the current phase is still empty is silently
dropped (the guarded `else` at cost_estimator.py 250-259 neither packs nor
seeds it).  With one violation of cost 5000 and budget 4000 the returned plan
has no phases at all — phase-cost sum 0 against violation-cost sum 5000 — and
even reports `fully_funded = true`. -/
theorem C1_phased_drops_over_budget_violation :
    (estimate_phased_approach [c1v] 4000).phases = [] ∧
    (((estimate_phased_approach [c1v] 4000).phases.map Phase.cost).sum = 0 ∧
      ([c1v].map (fun v => v.cost.getD 0)).sum = 5000) ∧
    (estimate_phased_approach [c1v] 4000).fully_funded = true := by
  decide

/-! ## C6 -/

/-- With every cost strictly positive and a non-positive remaining budget the
phased loop ignores every violation: nothing fits, and the current phase can
never become non-empty. -/
theorem phasedLoop_nonpositive_budget (b : Int) (l : List Violation)
    (phases : List Phase) (cur : Phase) (r : Int)
    (hcur : cur.violations = []) (hr : r ≤ 0)
    (hc : ∀ v ∈ l, 0 < v.cost.getD 0) :
    phasedLoop b l phases cur r = (phases, cur, r) := by
  induction l with
  | nil => rfl
  | cons v t ih =>
    have hv : 0 < v.cost.getD 0 := hc v (List.mem_cons_self v t)
    have hnot : ¬ (v.cost.getD 0 ≤ r) := by omega
    simp only [phasedLoop, hnot, if_false, hcur, ne_eq, not_true_eq_false,
      ite_false]
    exact ih (fun w hw => hc w (List.mem_cons_of_mem v hw))

/-- C6 amended: a budget ≤ 0 is NOT rejected: `estimate_phased_approach` has
no validation at all.  Given any violations with positive costs it silently
returns an empty plan, whose `fully_funded` flag is `budget ≥ 0`. -/
theorem C6_budget_not_validated (vs : List Violation) (b : Int)
    (hb : b ≤ 0) (hc : ∀ v ∈ vs, 0 < v.cost.getD 0) :
    estimate_phased_approach vs b =
      { phases := [], total_phases := 0, fully_funded := decide (b ≥ 0) } := by
  have hc2 : ∀ v ∈ List.insertionSort pLE vs, 0 < v.cost.getD 0 := by
    intro v hv
    exact hc v ((List.mem_insertionSort pLE).mp hv)
  simp only [estimate_phased_approach,
    phasedLoop_nonpositive_budget b _ [] ⟨[], 0, 1⟩ b rfl hb hc2]
  simp

def c6v : Violation := mkV "Trip Hazard" Severity.High (some 1) (some 1200)

/-- C6 counterexample: budget 0 passed to phased estimation is accepted and
produces an ordinary (degenerate) plan — no failure is raised, and no default
budget is guessed; the violation is simply dropped. -/
theorem C6_budget_zero_returns_normally :
    estimate_phased_approach [c6v] 0 =
      { phases := [], total_phases := 0, fully_funded := true } := by
  decide

/-- Witness for C6 amended at budget -5. -/
theorem C6_budget_not_validated_witness :
    estimate_phased_approach [c6v] (-5) =
      { phases := [], total_phases := 0, fully_funded := decide ((-5 : Int) ≥ 0) } :=
  C6_budget_not_validated [c6v] (-5) (by decide) (by decide)

/-! ## C2 / C3 helper lemmas -/

theorem MIN_SIDEWALK_WIDTH_eq : MIN_SIDEWALK_WIDTH = 36 := rfl

theorem evaluate_curb (m : Measurements) (d : Detection)
    (hr : classRoute d.class_name = Route.curb) :
    evaluate m [d] = prioritize (check_curb_ramp d m) := by
  unfold evaluate
  congr 1
  simp [rawViolations, hr]

theorem evaluate_sidewalk (m : Measurements) (d : Detection)
    (hr : classRoute d.class_name = Route.sidewalk) :
    evaluate m [d] = prioritize (check_sidewalk d m) := by
  unfold evaluate
  congr 1
  simp [rawViolations, hr]

theorem evaluate_crosswalk (m : Measurements) (d : Detection)
    (hr : classRoute d.class_name = Route.crosswalk) :
    evaluate m [d] = prioritize (check_crosswalk d m) := by
  unfold evaluate
  congr 1
  simp [rawViolations, hr]

theorem prioritize_singleton (v : Violation) : prioritize [v] = [enrich v] := rfl

theorem slopeCheck_absent (d : Detection) (m : Measurements)
    (h : ∀ mp, m.slope = some mp → List.lookup d.id mp = none) :
    slopeCheck d m = [] := by
  unfold slopeCheck
  rcases hs : m.slope with _ | mp
  · rfl
  · simp [h mp hs]

theorem crossSlopeCheckCurb_absent (d : Detection) (m : Measurements)
    (h : ∀ mp, m.cross_slope = some mp → List.lookup d.id mp = none) :
    crossSlopeCheckCurb d m = [] := by
  unfold crossSlopeCheckCurb
  rcases hs : m.cross_slope with _ | mp
  · rfl
  · simp [h mp hs]

theorem landingCheck_absent (d : Detection) (m : Measurements)
    (h : ∀ mp, m.landing_size = some mp → List.lookup d.id mp = none) :
    landingCheck d m = [] := by
  unfold landingCheck
  rcases hs : m.landing_size with _ | mp
  · rfl
  · simp [h mp hs]

theorem markingCheck_absent (d : Detection) (m : Measurements)
    (h : ∀ mp, m.marking_quality = some mp → List.lookup d.id mp = none) :
    markingCheck d m = [] := by
  unfold markingCheck
  rcases hs : m.marking_quality with _ | mp
  · rfl
  · simp [h mp hs]

theorem warningCheck_missing_id (d : Detection) (m : Measurements)
    (mp : List (Nat × Bool)) (hm : m.detectable_warning = some mp)
    (h : List.lookup d.id mp = none) :
    warningCheck d m = [detectableWarningViolation d] := by
  unfold warningCheck
  simp [hm, h]

theorem rampsCheck_missing_id (d : Detection) (m : Measurements)
    (mp : List (Nat × Bool)) (hm : m.has_curb_ramps = some mp)
    (h : List.lookup d.id mp = none) :
    rampsCheck d m = [missingCurbRampsViolation d] := by
  unfold rampsCheck
  simp [hm, h]

theorem crossSlopeCheckSidewalk_vtype (d : Detection) (m : Measurements)
    (v : Violation) (h : v ∈ crossSlopeCheckSidewalk d m) :
    v.vtype = "Cross Slope" := by
  unfold crossSlopeCheckSidewalk at h
  rcases hs : m.cross_slope with _ | mp
  · simp [hs] at h
  · simp only [hs] at h
    rcases hl : List.lookup d.id mp with _ | s
    · simp [hl] at h
    · simp only [hl] at h
      split at h
      · rw [List.mem_singleton.mp h]
        rfl
      · simp at h

/-! ## C2 -/

/-- C2 as corrected: for the numeric measurement kinds a missing id indeed
yields no verdict, but the two boolean kinds default a missing id to `False`:
when the `detectable_warning` (resp. `has_curb_ramps`) map is present without
the detection's id, a Detectable Warning (resp. Missing Curb Ramps) violation
IS emitted for a curb-ramp-routed (resp. crosswalk-routed) detection. -/
theorem C2_boolean_kinds_default_missing_id_to_false :
    (∀ (d : Detection) (m : Measurements),
      classRoute d.class_name = Route.curb →
      (∀ mp, m.slope = some mp → List.lookup d.id mp = none) →
      (∀ mp, m.cross_slope = some mp → List.lookup d.id mp = none) →
      (∀ mp, m.landing_size = some mp → List.lookup d.id mp = none) →
      (∀ mp, m.detectable_warning = some mp → List.lookup d.id mp = none) →
      m.detectable_warning ≠ none →
      (evaluate m [d]).map Violation.vtype = ["Detectable Warning"]) ∧
    (∀ (d : Detection) (m : Measurements),
      classRoute d.class_name = Route.crosswalk →
      (∀ mp, m.marking_quality = some mp → List.lookup d.id mp = none) →
      (∀ mp, m.has_curb_ramps = some mp → List.lookup d.id mp = none) →
      m.has_curb_ramps ≠ none →
      (evaluate m [d]).map Violation.vtype = ["Missing Curb Ramps"]) := by
  constructor
  · intro d m hr h1 h2 h3 h4 h5
    rcases hw : m.detectable_warning with _ | mp
    · exact absurd hw h5
    have e : check_curb_ramp d m = [detectableWarningViolation d] := by
      unfold check_curb_ramp
      rw [slopeCheck_absent d m h1, crossSlopeCheckCurb_absent d m h2,
        landingCheck_absent d m h3, warningCheck_missing_id d m mp hw (h4 mp hw)]
      rfl
    rw [evaluate_curb m d hr, e, prioritize_singleton]
    rfl
  · intro d m hr h1 h2 h3
    rcases hw : m.has_curb_ramps with _ | mp
    · exact absurd hw h3
    have e : check_crosswalk d m = [missingCurbRampsViolation d] := by
      unfold check_crosswalk
      rw [markingCheck_absent d m h1, rampsCheck_missing_id d m mp hw (h2 mp hw)]
      rfl
    rw [evaluate_crosswalk m d hr, e, prioritize_singleton]
    rfl

def c2d : Detection :=
  { id := 1, class_name := "curb ramp", confidence := 1, bbox := [0, 0, 1, 1] }

def c2m : Measurements :=
  { emptyMeasurements with detectable_warning := some [] }

/-- C2 counterexample: the detectable_warning map is present but holds no
entry for detection id 1, yet `evaluate` still emits a Detectable Warning
violation for it (compliance_engine.py 154: `.get(det_id, False)`), contrary
to the claimed "no verdict". -/
theorem C2_missing_id_still_emits_warning :
    (evaluate c2m [c2d]).map Violation.vtype = ["Detectable Warning"] ∧
    c2m.detectable_warning = some [] ∧
    List.lookup c2d.id ([] : List (Nat × Bool)) = none := by
  decide

/-- Witness for the amended C2 at a concrete curb-ramp detection and a
concrete crosswalk detection. -/
theorem C2_boolean_kinds_witness :
    (evaluate c2m [c2d]).map Violation.vtype = ["Detectable Warning"] ∧
    (evaluate { emptyMeasurements with has_curb_ramps := some [(7, true)] }
        [{ id := 1, class_name := "crosswalk", confidence := 1, bbox := [] }]).map
      Violation.vtype = ["Missing Curb Ramps"] := by
  constructor
  · exact C2_boolean_kinds_default_missing_id_to_false.1 c2d c2m (by decide)
      (by intro mp h; cases h) (by intro mp h; cases h) (by intro mp h; cases h)
      (by intro mp h; cases h ; decide) (by decide)
  · exact C2_boolean_kinds_default_missing_id_to_false.2 _ _ (by decide)
      (by intro mp h; cases h) (by intro mp h; cases h ; decide) (by decide)

/-! ## C3 -/

def c3d : Detection :=
  { id := 1, class_name := "sidewalk", confidence := 1, bbox := [0, 0, 1, 1] }

/-- C3 counterexample: a present width of 0 (non-negative and < 36) produces
NO violation (Python falsy guard `if width and ...`), and a present
out-of-physical-range width of -1 DOES produce a Sidewalk Width violation —
both contrary to the claim. -/
theorem C3_zero_width_no_verdict_negative_width_flagged :
    evaluate { emptyMeasurements with width := some [(1, 0)] } [c3d] = [] ∧
    (evaluate { emptyMeasurements with width := some [(1, -1)] } [c3d]).map
      Violation.vtype = ["Sidewalk Width"] := by
  decide

/-- C3 as corrected: for a sidewalk-routed detection whose width measurement
is present with value `w`, a Sidewalk Width violation is emitted iff
`w ≠ 0 ∧ w < 36`: equality to the 36-inch threshold is compliant, a present
zero width yields no verdict (falsy in Python), and negative widths are NOT
screened out — they are flagged like any small width. -/
theorem C3_width_violation_iff (d : Detection) (m : Measurements)
    (mp : List (Nat × ℚ)) (w : ℚ)
    (hr : classRoute d.class_name = Route.sidewalk)
    (hm : m.width = some mp) (hw : List.lookup d.id mp = some w) :
    (∃ v ∈ evaluate m [d], v.vtype = "Sidewalk Width") ↔ (w ≠ 0 ∧ w < 36) := by
  rw [evaluate_sidewalk m d hr, exists_vtype_prioritize]
  unfold check_sidewalk
  constructor
  · rintro ⟨v, hv, hvt⟩
    rcases List.mem_append.mp hv with h | h
    · unfold widthCheck at h
      simp only [hm, hw] at h
      split at h
      · rw [← MIN_SIDEWALK_WIDTH_eq]
        assumption
      · simp at h
    · have := crossSlopeCheckSidewalk_vtype d m v h
      rw [hvt] at this
      exact absurd this (by decide)
  · rintro ⟨h0, hlt⟩
    refine ⟨sidewalkWidthViolation d, List.mem_append_left _ ?_, rfl⟩
    unfold widthCheck
    simp only [hm, hw, MIN_SIDEWALK_WIDTH_eq]
    rw [if_pos ⟨h0, hlt⟩]
    exact List.mem_singleton_self _

/-- Witness for the amended C3: width 10 on a sidewalk detection is flagged. -/
theorem C3_width_violation_iff_witness :
    ∃ v ∈ evaluate { emptyMeasurements with width := some [(1, 10)] } [c3d],
      v.vtype = "Sidewalk Width" :=
  (C3_width_violation_iff c3d _ [(1, 10)] 10 (by decide) rfl (by decide)).mpr
    (by norm_num)

/-! ## C7 -/

/-- C7: `_prioritize_violations` is a stable sort of the cost/priority
enriched records by ascending priority then descending cost: the output is a
permutation of the enriched input, sorted under `vLE`, priorities are
non-decreasing along it, two entries with equal (priority, cost) keys keep
their input order, and when every explicit input priority is in {1,2,3} every
output priority is a `some` value in {1,2,3}. -/
theorem C7_prioritize_stable_sort (vs : List Violation) :
    List.Perm (prioritize vs) (vs.map enrich) ∧
    List.Sorted vLE (prioritize vs) ∧
    List.Pairwise (fun a b => sortPr a ≤ sortPr b) (prioritize vs) ∧
    (∀ a b : Violation, List.Sublist [a, b] vs →
      sortPr (enrich a) = sortPr (enrich b) →
      sortCo (enrich a) = sortCo (enrich b) →
      List.Sublist [enrich a, enrich b] (prioritize vs)) ∧
    ((∀ v ∈ vs, ∀ p, v.priority = some p → 1 ≤ p ∧ p ≤ 3) →
      ∀ v ∈ prioritize vs, ∃ p, v.priority = some p ∧ 1 ≤ p ∧ p ≤ 3) := by
  refine ⟨List.perm_insertionSort vLE _, List.sorted_insertionSort vLE _, ?_, ?_, ?_⟩
  · refine (List.sorted_insertionSort vLE (vs.map enrich)).imp ?_
    intro a b hab
    rcases hab with hlt | ⟨heq, _⟩
    · omega
    · omega
  · intro a b hab h1 h2
    exact List.pair_sublist_insertionSort (Or.inr ⟨h1, le_of_eq h2.symm⟩)
      (hab.map enrich)
  · intro hvp v hv
    have hv2 : v ∈ vs.map enrich := (List.mem_insertionSort vLE).mp hv
    rcases List.mem_map.mp hv2 with ⟨w, hw, rfl⟩
    rcases hp : w.priority with _ | p
    · refine ⟨severityPriority w.severity, by simp [enrich, hp], ?_⟩
      cases w.severity <;> simp [severityPriority]
    · exact ⟨p, by simp [enrich, hp], hvp w hw p hp⟩

/-- Witness for C7's priority-range conjunct at a concrete input. -/
theorem C7_prioritize_stable_sort_witness :
    ∀ v ∈ prioritize [mkV "Trip Hazard" Severity.Low none none],
      ∃ p, v.priority = some p ∧ 1 ≤ p ∧ p ≤ 3 :=
  (C7_prioritize_stable_sort [mkV "Trip Hazard" Severity.Low none none]).2.2.2.2
    (by
      intro v hv p hp
      rw [List.mem_singleton.mp hv] at hp
      simp [mkV] at hp)

/-! ## C8 -/

/-- C8: the compliance score is always within [0, 100]; it is 100 when there
are no violations, and 100 when there are no detections. -/
theorem C8_score_range (vs : List Violation) (ds : List Detection) :
    0 ≤ calculate_compliance_score vs ds ∧
    calculate_compliance_score vs ds ≤ 100 ∧
    (vs = [] → calculate_compliance_score vs ds = 100) ∧
    (ds = [] → calculate_compliance_score vs ds = 100) := by
  unfold calculate_compliance_score
  by_cases hd : ds = []
  · simp [hd]
  · have hmw : ¬ (ds.length * 3 = 0) := by
      have := List.length_pos.mpr hd
      omega
    rw [if_neg hd]
    dsimp only
    rw [if_neg hmw]
    refine ⟨le_max_left 0 _, max_le (by norm_num) (min_le_left _ _), ?_, ?_⟩
    · intro hv
      subst hv
      norm_num [total_severity_weight]
    · intro hds
      exact absurd hds hd

/-- Witness for C8 at concrete inputs. -/
theorem C8_score_range_witness :
    calculate_compliance_score [] [c3d] = 100 ∧
    calculate_compliance_score [mkV "Trip Hazard" Severity.High (some 1) none] [] = 100 :=
  ⟨(C8_score_range [] [c3d]).2.2.1 rfl,
   (C8_score_range [mkV "Trip Hazard" Severity.High (some 1) none] []).2.2.2 rfl⟩

/-! ## C9 -/

def c9v : Violation := mkV "Sidewalk Width" Severity.Medium (some 2) none

/-- C9 counterexample: one detection, one Medium violation: total_weight 2,
max_possible_weight 3.  The code computes `100 - int((2/3)*100) = 100 - 66
= 34`, while the claimed formula `100 - round(100*2/3) = 100 - 67 = 33`. -/
theorem C9_score_truncates_not_rounds :
    calculate_compliance_score [c9v] [c3d] = 34 ∧
    total_severity_weight [c9v] = 2 ∧
    max 0 (min 100 ((100 : ℤ) - round ((100 * (2 : ℚ)) / 3))) = 33 := by
  refine ⟨?_, rfl, ?_⟩
  · norm_num [calculate_compliance_score, total_severity_weight, severity_weight,
      c9v, mkV, c3d]
  · norm_num [round_eq]

/-- The floor of the rational `(a / b) * 100` is natural-number division. -/
theorem floor_div_mul_hundred (a b : ℕ) :
    Int.floor ((a : ℚ) / (b : ℚ) * 100) = ((100 * a) / b : ℕ) := by
  have h1 : (a : ℚ) / b * 100 = ((100 * a : ℕ) : ℚ) / ((b : ℕ) : ℚ) := by
    push_cast
    ring
  rw [h1, Rat.floor_natCast_div_natCast]
  exact (Int.ofNat_div _ _).symm

/-- C9 amended: for non-empty detections the score is
`clamp(100 − (100 × total_weight) / (3 × #detections))` with TRUNCATING
(floor) division, not rounding. -/
theorem C9_score_floor_formula (vs : List Violation) (ds : List Detection)
    (hd : ds ≠ []) :
    calculate_compliance_score vs ds =
      max 0 (min 100 ((100 : ℤ) -
        ((100 * total_severity_weight vs) / (3 * ds.length) : ℕ))) := by
  unfold calculate_compliance_score
  have hmw : ¬ (ds.length * 3 = 0) := by
    have := List.length_pos.mpr hd
    omega
  rw [if_neg hd]
  dsimp only
  rw [if_neg hmw]
  rw [floor_div_mul_hundred]
  rw [Nat.mul_comm ds.length 3]

/-- Witness for the amended C9. -/
theorem C9_score_floor_formula_witness :
    calculate_compliance_score [c9v] [c3d] =
      max 0 (min 100 ((100 : ℤ) -
        ((100 * total_severity_weight [c9v]) / (3 * ([c3d] : List Detection).length) : ℕ))) :=
  C9_score_floor_formula [c9v] [c3d] (by decide)

/-! ## C4 -/

def c4v : Violation := mkV "Sidewalk Width" Severity.Medium (some 2) none

/-- C4 counterexample: one Sidewalk Width violation at complexity
`urban_high_traffic`: adjusted cost 1800 × 1.3 = 2340, and
`int(2340 * 0.12) = int(280.8) = 280`, but the claimed
`round(2340 × 0.12) = 281`: the code truncates the contingency, it does not
round it. -/
theorem C4_contingency_truncated :
    (estimate [c4v] "urban_high_traffic").total_cost = 2340 ∧
    (estimate [c4v] "urban_high_traffic").contingency = some 280 ∧
    round ((2340 : ℚ) * (12 / 100)) = 281 := by
  refine ⟨?_, ?_, ?_⟩
  · simp [estimate, estimateLoop, adjustedCost, BASE_COSTS, COMPLEXITY_FACTORS, c4v, mkV]
    norm_num
    omega
  · simp [estimate, estimateLoop, adjustedCost, BASE_COSTS, COMPLEXITY_FACTORS, c4v, mkV]
    norm_num
    rw [show ((2340 : ℤ)).toNat = (2340 : ℕ) from rfl]
    norm_num
    omega
  · norm_num [round_eq]

/-- `int(total_cost * 0.12)` is the truncating `total_cost * 12 / 100`. -/
theorem floor_times_twelve_hundredths (n : ℕ) :
    (Int.floor ((n : ℚ) * (12 / 100))).toNat = n * 12 / 100 := by
  have h1 : (n : ℚ) * (12 / 100) = ((n * 12 : ℕ) : ℚ) / ((100 : ℕ) : ℚ) := by
    push_cast
    ring
  rw [h1, Rat.floor_natCast_div_natCast]
  omega

/-- The complexity multiplier is always one of the five table values (unknown
keys fall back to 1). -/
theorem complexity_factor_cases (c : String) :
    (COMPLEXITY_FACTORS c).getD 1 = 13 / 10 ∨ (COMPLEXITY_FACTORS c).getD 1 = 3 / 2 ∨
    (COMPLEXITY_FACTORS c).getD 1 = 7 / 5 ∨ (COMPLEXITY_FACTORS c).getD 1 = 6 / 5 ∨
    (COMPLEXITY_FACTORS c).getD 1 = 1 := by
  unfold COMPLEXITY_FACTORS
  split_ifs <;> simp

/-- Every base-cost table entry has one of the nine typical costs. -/
theorem base_costs_typical_cases (t : String) (info : CostInfo)
    (h : BASE_COSTS t = some info) :
    info.typical = 2500 ∨ info.typical = 3200 ∨ info.typical = 1800 ∨
    info.typical = 800 ∨ info.typical = 2200 ∨ info.typical = 1500 ∨
    info.typical = 3500 ∨ info.typical = 400 ∨ info.typical = 1200 := by
  unfold BASE_COSTS at h
  split_ifs at h <;> first | (cases h ; simp) | simp_all

/-- For every type in the base-cost table and every complexity key the
truncated adjusted cost coincides with rounding, because each typical cost
times each multiplier is an exact integer. -/
theorem adjustedCost_eq_round (info : CostInfo) (t : String)
    (hB : BASE_COSTS t = some info) (c : String) :
    ((adjustedCost info.typical ((COMPLEXITY_FACTORS c).getD 1)) : ℤ) =
      round ((info.typical : ℚ) * ((COMPLEXITY_FACTORS c).getD 1)) := by
  rcases complexity_factor_cases c with hm | hm | hm | hm | hm <;>
    rcases base_costs_typical_cases t info hB with ht | ht | ht | ht | ht | ht | ht | ht | ht <;>
      rw [hm, ht] <;> norm_num [adjustedCost, round_eq]

/-- Every breakdown entry of the estimate loop comes from a base-cost table
hit, with the complexity-adjusted cost. -/
theorem estimateLoop_breakdown_cost (mult : ℚ) (vs : List Violation) :
    ∀ b ∈ (estimateLoop mult vs).1, ∃ info, BASE_COSTS b.type = some info ∧
      b.cost = adjustedCost info.typical mult := by
  induction vs with
  | nil => intro b hb; simp [estimateLoop] at hb
  | cons v t ih =>
    intro b hb
    rcases hB : BASE_COSTS v.vtype with _ | info
    · simp only [estimateLoop, hB] at hb
      exact ih b hb
    · simp only [estimateLoop, hB] at hb
      rcases List.mem_cons.mp hb with rfl | hb2
      · exact ⟨info, hB, rfl⟩
      · exact ih b hb2

/-- C4 amended: for non-empty violations, the contingency is the TRUNCATED
`total_cost * 12 / 100` (not rounded — see the counterexample),
`total_with_contingency = total_cost + contingency`, and each breakdown
entry's cost equals `round(base_typical_cost × multiplier)` (for the table
values truncation and rounding agree, as the products are exact integers). -/
theorem C4_estimate_contingency_formula (vs : List Violation) (c : String)
    (h : vs ≠ []) :
    (estimate vs c).contingency = some ((estimate vs c).total_cost * 12 / 100) ∧
    (estimate vs c).total_with_contingency =
      some ((estimate vs c).total_cost + (estimate vs c).total_cost * 12 / 100) ∧
    (∀ b ∈ (estimate vs c).breakdown, ∃ info, BASE_COSTS b.type = some info ∧
      (b.cost : ℤ) = round ((info.typical : ℚ) * ((COMPLEXITY_FACTORS c).getD 1))) := by
  unfold estimate
  rw [if_neg h]
  dsimp only
  refine ⟨by rw [floor_times_twelve_hundredths], by rw [floor_times_twelve_hundredths], ?_⟩
  intro b hb
  obtain ⟨info, hB, hc⟩ := estimateLoop_breakdown_cost _ _ b hb
  exact ⟨info, hB, by rw [hc]; exact adjustedCost_eq_round info b.type hB c⟩

/-- Witness for the amended C4 at a concrete violation list. -/
theorem C4_estimate_contingency_formula_witness :
    (estimate [c4v] "urban_high_traffic").contingency =
      some ((estimate [c4v] "urban_high_traffic").total_cost * 12 / 100) ∧
    (estimate [c4v] "urban_high_traffic").total_with_contingency =
      some ((estimate [c4v] "urban_high_traffic").total_cost +
        (estimate [c4v] "urban_high_traffic").total_cost * 12 / 100) ∧
    (∀ b ∈ (estimate [c4v] "urban_high_traffic").breakdown,
      ∃ info, BASE_COSTS b.type = some info ∧
        (b.cost : ℤ) = round ((info.typical : ℚ) *
          ((COMPLEXITY_FACTORS "urban_high_traffic").getD 1))) :=
  C4_estimate_contingency_formula [c4v] "urban_high_traffic" (by decide)

/-! ## C10 -/

/-- Running totals of the estimate loop: total cost is the breakdown-cost sum
plus 1000 per unknown-type violation, and labor hours likewise with 8 per
unknown type; the breakdown has exactly one entry per known-type violation. -/
theorem estimateLoop_totals (mult : ℚ) (vs : List Violation) :
    (estimateLoop mult vs).2.1 =
      ((estimateLoop mult vs).1.map (fun b => b.cost)).sum +
        1000 * (vs.filter (fun v => (BASE_COSTS v.vtype).isNone)).length ∧
    (estimateLoop mult vs).2.2 =
      ((estimateLoop mult vs).1.map (fun b => b.labor_hours)).sum +
        8 * (vs.filter (fun v => (BASE_COSTS v.vtype).isNone)).length ∧
    (estimateLoop mult vs).1.length =
      (vs.filter (fun v => (BASE_COSTS v.vtype).isSome)).length := by
  induction vs with
  | nil => refine ⟨rfl, rfl, rfl⟩
  | cons v t ih =>
    obtain ⟨ih1, ih2, ih3⟩ := ih
    rcases hB : BASE_COSTS v.vtype with _ | info
    · refine ⟨?_, ?_, ?_⟩ <;>
        simp [estimateLoop, hB, List.filter_cons, ih1, ih2, ih3] <;> omega
    · refine ⟨?_, ?_, ?_⟩ <;>
        simp [estimateLoop, hB, List.filter_cons, ih1, ih2, ih3] <;> omega

/-- C10: for non-empty violations, unknown-type violations contribute the
default 1000 cost and 8 labor hours to the totals but no breakdown entry, so
the breakdown-cost sum equals total_cost iff every violation's type is in the
base-cost table, and is strictly smaller otherwise. -/
theorem C10_unknown_types_breakdown (vs : List Violation) (c : String)
    (h : vs ≠ []) :
    ((estimate vs c).breakdown.map (fun b => b.cost)).sum +
        1000 * (vs.filter (fun v => (BASE_COSTS v.vtype).isNone)).length =
      (estimate vs c).total_cost ∧
    (estimate vs c).labor_hours =
      ((estimate vs c).breakdown.map (fun b => b.labor_hours)).sum +
        8 * (vs.filter (fun v => (BASE_COSTS v.vtype).isNone)).length ∧
    (estimate vs c).breakdown.length =
      (vs.filter (fun v => (BASE_COSTS v.vtype).isSome)).length ∧
    (((estimate vs c).breakdown.map (fun b => b.cost)).sum =
        (estimate vs c).total_cost ↔
      ∀ v ∈ vs, (BASE_COSTS v.vtype).isSome = true) ∧
    ((∃ v ∈ vs, (BASE_COSTS v.vtype).isNone = true) →
      ((estimate vs c).breakdown.map (fun b => b.cost)).sum <
        (estimate vs c).total_cost) := by
  unfold estimate
  rw [if_neg h]
  dsimp only
  obtain ⟨h1, h2, h3⟩ := estimateLoop_totals ((COMPLEXITY_FACTORS c).getD 1) vs
  refine ⟨h1.symm, h2, h3, ?_, ?_⟩
  · rw [h1]
    constructor
    · intro he v hv
      have hu : (vs.filter (fun v => (BASE_COSTS v.vtype).isNone)).length = 0 := by
        omega
      rw [List.length_eq_zero, List.filter_eq_nil_iff] at hu
      have := hu v hv
      rcases hB : BASE_COSTS v.vtype with _ | info
      · rw [hB] at this
        simp at this
      · simp [Option.isSome]
    · intro hall
      have hu : (vs.filter (fun v => (BASE_COSTS v.vtype).isNone)).length = 0 := by
        rw [List.length_eq_zero, List.filter_eq_nil_iff]
        intro v hv
        have := hall v hv
        rcases hB : BASE_COSTS v.vtype with _ | info
        · rw [hB] at this
          simp at this
        · simp
      omega
  · rintro ⟨v, hv, hnone⟩
    rw [h1]
    have hpos : 0 < (vs.filter (fun v => (BASE_COSTS v.vtype).isNone)).length :=
      List.length_pos.mpr (List.ne_nil_of_mem (List.mem_filter.mpr ⟨hv, hnone⟩))
    omega

def c10known : Violation := mkV "Crosswalk Markings" Severity.Medium (some 2) none

def c10unknown : Violation := mkV "Bus Stop Access" Severity.Low none none

/-- Witness for C10 with one known-type and one unknown-type violation. -/
theorem C10_unknown_types_breakdown_witness :
    ((estimate [c10known, c10unknown] "standard").breakdown.map (fun b => b.cost)).sum +
        1000 * (([c10known, c10unknown] : List Violation).filter
          (fun v => (BASE_COSTS v.vtype).isNone)).length =
      (estimate [c10known, c10unknown] "standard").total_cost ∧
    (estimate [c10known, c10unknown] "standard").labor_hours =
      ((estimate [c10known, c10unknown] "standard").breakdown.map
        (fun b => b.labor_hours)).sum +
        8 * (([c10known, c10unknown] : List Violation).filter
          (fun v => (BASE_COSTS v.vtype).isNone)).length ∧
    (estimate [c10known, c10unknown] "standard").breakdown.length =
      (([c10known, c10unknown] : List Violation).filter
        (fun v => (BASE_COSTS v.vtype).isSome)).length ∧
    (((estimate [c10known, c10unknown] "standard").breakdown.map
        (fun b => b.cost)).sum =
        (estimate [c10known, c10unknown] "standard").total_cost ↔
      ∀ v ∈ ([c10known, c10unknown] : List Violation),
        (BASE_COSTS v.vtype).isSome = true) ∧
    ((∃ v ∈ ([c10known, c10unknown] : List Violation),
        (BASE_COSTS v.vtype).isNone = true) →
      ((estimate [c10known, c10unknown] "standard").breakdown.map
        (fun b => b.cost)).sum <
        (estimate [c10known, c10unknown] "standard").total_cost) :=
  C10_unknown_types_breakdown [c10known, c10unknown] "standard" (by decide)
